import Mathlib

/-!
Verification of `src/httprequest.rs`: the HTTP request handle, its
single-use payload slot, derived-value accessors, and URL generation.

Machine data (header bytes, body chunks) is modelled with `Nat` lists;
collaborators that live outside `src/` (the routing table, the payload
stream type, connection info) are modelled at their interface boundary,
each marked `Modelled from the spec:` in its doc comment.
-/

namespace ActixReq

/-- Modelled from the spec: the `Payload` body-stream type lives in
`payload.rs`, which is not under `src/`.  The spec describes it as a
single-use body stream that also accepts a read-buffer-capacity hint
(`set_read_buffer_capacity`, default 32Kb per the doc comment in
`httprequest.rs`).  We keep the buffered data and the capacity hint. -/
structure Payload where
  data : List Nat
  bufCap : Nat
  deriving Repr, DecidableEq

/-- Modelled from the spec: `Payload::empty()` — the exhausted/empty
stream left behind (and returned) once the body has been taken. -/
def Payload.empty : Payload :=
  { data := [], bufCap := 32768 }

/-- Modelled from the spec: forwarding the buffering hint to the stream
(`payload.set_read_buffer_capacity(cap)` in `payload.rs`). -/
def Payload.set_read_buffer_capacity (p : Payload) (cap : Nat) : Payload :=
  { p with bufCap := cap }

/-- The request URI, at the interface the code consumes: `http::Uri`
exposes `path()` and `query()`, where `query()` is the substring of the
request target after the first `?` (absent when there is no `?`). -/
structure Uri where
  path : String
  query : Option String
  deriving Repr, DecidableEq

/-- Split a request-target character list at the first `?`: returns the
part before it and, when a `?` exists, the remainder after it. -/
def splitQuery : List Char → List Char × Option (List Char)
  | [] => ([], none)
  | c :: cs =>
    if c = '?' then ([], some cs)
    else
      let r := splitQuery cs
      (c :: r.1, r.2)

/-- Parse a request target into path and query component, the query
being the substring after the first `?` (as `http::Uri` exposes it). -/
def Uri.parse (s : String) : Uri :=
  let r := splitQuery s.toList
  { path := String.mk r.1, query := r.2.map String.mk }

/-- Modelled from the spec: `server::message::RequestContext` is not
under `src/`.  Per §3 of the spec it carries the wire-derived data,
shared by every clone of the handle; we keep the fields the embedded
methods read: the ordered header list, method, version, URI, and the
single-use payload slot (`RefCell<Option<Payload>>`). -/
structure RequestContext where
  headers : List (String × String)
  method : String
  version : String
  uri : Uri
  payload : Option Payload
  deriving Repr, DecidableEq

/-- `HttpMessage::payload` for `HttpRequest` (httprequest.rs:49-57):
`self.msg.inner.payload.borrow_mut().take()` — if the shared slot holds
a payload, return it and leave `None` behind; otherwise return
`Payload::empty()`.  The slot lives on the context shared by every
clone of the handle, so the state threaded here is that shared state;
we return the produced stream together with the updated context. -/
def HttpRequest.payload (ctx : RequestContext) : Payload × RequestContext :=
  match ctx.payload with
  | some p => (p, { ctx with payload := none })
  | none => (Payload.empty, ctx)

/-- Results of `n` successive `payload()` calls against one shared
context, whichever clone of the handle performs each call. -/
def payloadCalls : RequestContext → Nat → List Payload
  | _, 0 => []
  | ctx, n + 1 =>
    let r := HttpRequest.payload ctx
    r.1 :: payloadCalls r.2 n

/-- `set_read_buffer_capacity` (httprequest.rs:310-314): if the shared
slot still holds the payload, forward the hint to it; otherwise do
nothing. -/
def HttpRequest.set_read_buffer_capacity (ctx : RequestContext) (cap : Nat) :
    RequestContext :=
  match ctx.payload with
  | some p => { ctx with payload := some (p.set_read_buffer_capacity cap) }
  | none => ctx

/-- `query_string` (httprequest.rs:240-250): the URI query component,
or the empty string when absent. -/
def HttpRequest.query_string (ctx : RequestContext) : String :=
  match ctx.uri.query with
  | some q => q
  | none => ""

/-- A request context over a given URI with no headers and no payload,
as `TestRequest::with_uri` builds one in the module tests. -/
def simpleRequest (u : Uri) : RequestContext :=
  { headers := [], method := "GET", version := "HTTP/1.1", uri := u,
    payload := none }

/-- A request context carrying the given headers (as
`TestRequest::default().header(..)` builds one in the module tests). -/
def requestWithHeaders (hs : List (String × String)) : RequestContext :=
  { simpleRequest (Uri.parse "/") with headers := hs }

-- Lemma: once the slot is empty every further call yields the empty stream.
theorem payloadCalls_none (ctx : RequestContext) (h : ctx.payload = none) :
    ∀ n, payloadCalls ctx n = List.replicate n Payload.empty := by
  intro n
  induction n generalizing ctx with
  | zero => simp [payloadCalls]
  | succ n ih =>
    simp only [payloadCalls, HttpRequest.payload, h, List.replicate]
    rw [ih ctx h]

/-- C1: against a shared context whose slot holds the original body
stream `p`, a sequence of `payload()` calls — each acting on the one
context all handle clones share — yields `p` on the first call and
`Payload.empty` on every one of the `n` subsequent calls, never the
original data again. -/
theorem payload_take_once (ctx : RequestContext) (p : Payload) (n : Nat) :
    payloadCalls { ctx with payload := some p } (n + 1)
      = p :: List.replicate n Payload.empty := by
  simp only [payloadCalls, HttpRequest.payload]
  rw [payloadCalls_none _ rfl n]

/-- C9: `set_read_buffer_capacity` forwards the hint to the stream when
the payload is still present — only the payload slot of the context
changes, to the same stream with the new capacity — and leaves the
context entirely unchanged once the payload has been taken. -/
theorem set_read_buffer_capacity_spec (ctx : RequestContext) (cap : Nat) :
    (∀ p, ctx.payload = some p →
      HttpRequest.set_read_buffer_capacity ctx cap
        = { ctx with payload := some { p with bufCap := cap } }) ∧
    (ctx.payload = none → HttpRequest.set_read_buffer_capacity ctx cap = ctx) := by
  constructor
  · intro p hp
    simp [HttpRequest.set_read_buffer_capacity, hp, Payload.set_read_buffer_capacity]
  · intro hp
    simp [HttpRequest.set_read_buffer_capacity, hp]

/-- Witness for C9: a context holding a payload gets its capacity hint
forwarded; a context whose payload was taken is left unchanged. -/
theorem set_read_buffer_capacity_spec_witness :
    (HttpRequest.set_read_buffer_capacity
        { simpleRequest (Uri.parse "/") with
            payload := some { data := [1, 2], bufCap := 32768 } } 64
      = { simpleRequest (Uri.parse "/") with
            payload := some { data := [1, 2], bufCap := 64 } }) ∧
    (HttpRequest.set_read_buffer_capacity (simpleRequest (Uri.parse "/")) 64
      = simpleRequest (Uri.parse "/")) := by
  refine ⟨?_, ?_⟩
  · exact (set_read_buffer_capacity_spec
      { simpleRequest (Uri.parse "/") with
          payload := some { data := [1, 2], bufCap := 32768 } } 64).1
      { data := [1, 2], bufCap := 32768 } rfl
  · exact (set_read_buffer_capacity_spec (simpleRequest (Uri.parse "/")) 64).2 rfl

-- Lemma: a character list without `?` splits into itself and no query.
theorem splitQuery_no_qmark (p : List Char) (h : '?' ∉ p) :
    splitQuery p = (p, none) := by
  induction p with
  | nil => rfl
  | cons c cs ih =>
    rw [List.mem_cons, not_or] at h
    have hc : ¬ c = '?' := fun hc => h.1 hc.symm
    simp [splitQuery, hc, ih h.2]

-- Lemma: splitting cuts at the first `?`, keeping everything after it.
theorem splitQuery_qmark (p q : List Char) (h : '?' ∉ p) :
    splitQuery (p ++ '?' :: q) = (p, some q) := by
  induction p with
  | nil => simp [splitQuery]
  | cons c cs ih =>
    rw [List.mem_cons, not_or] at h
    have hc : ¬ c = '?' := fun hc => h.1 hc.symm
    simp [splitQuery, hc, ih h.2]

/-- C8: on a request target containing a `?`, `query_string()` returns
the substring after the first `?`; on a target with no `?` (hence no
query component) it returns the empty string. -/
theorem query_string_spec (p q : List Char) (s : String) :
    ('?' ∉ p →
      HttpRequest.query_string
          (simpleRequest (Uri.parse (String.mk (p ++ '?' :: q))))
        = String.mk q) ∧
    ('?' ∉ s.toList →
      HttpRequest.query_string (simpleRequest (Uri.parse s)) = "") := by
  constructor
  · intro h
    simp [HttpRequest.query_string, Uri.parse, String.toList, simpleRequest,
      splitQuery_qmark p q h]
  · intro h
    have h2 : splitQuery s.data = (s.data, none) := splitQuery_no_qmark s.data h
    simp [HttpRequest.query_string, Uri.parse, simpleRequest, h2]

/-- Witness for C8: the URI `/?id=test` yields query string `id=test`;
the URI `/` yields the empty query string. -/
theorem query_string_spec_witness :
    HttpRequest.query_string
        (simpleRequest (Uri.parse (String.mk ("/".toList ++ '?' :: "id=test".toList))))
      = String.mk "id=test".toList ∧
    HttpRequest.query_string (simpleRequest (Uri.parse "/")) = "" := by
  exact ⟨(query_string_spec "/".toList "id=test".toList "/").1 (by decide),
    (query_string_spec "/".toList "id=test".toList "/").2 (by decide)⟩

/-- Outcome of calling a Rust function that may panic instead of
returning a value. -/
inductive RustOutcome (α : Type) where
  | panicked (msg : String)
  | returns (v : α)
  deriving Repr, DecidableEq

/-- Modelled from the spec: `CookieParseError` (error.rs is not under
src/), per §7 — a `Cookie` header segment failed to decode, identifying
the malformed segment. -/
inductive CookieParseError where
  | malformedSegment (seg : String)
  deriving Repr, DecidableEq

/-- A parsed cookie entry at the interface the code consumes from the
external cookie crate: an owned name and value. -/
structure Cookie where
  name : String
  value : String
  deriving Repr, DecidableEq

/-- `query` (httprequest.rs:224-238): the body is `unimplemented!()` —
the draft that would parse the query string into a map and cache it on
the extensions bag is commented out — so every call panics instead of
returning the query map. -/
def HttpRequest.query (_ctx : RequestContext) :
    RustOutcome (List (String × String)) :=
  .panicked "not implemented"

/-- `cookies` (httprequest.rs:252-271): the body is `unimplemented!()`
— the draft that would parse the `Cookie` headers and cache the list on
the extensions bag is commented out — so every call panics instead of
returning the cookie list. -/
def HttpRequest.cookies (_ctx : RequestContext) :
    RustOutcome (Except CookieParseError (List Cookie)) :=
  .panicked "not implemented"

/-- First entry of the list whose name equals `name` exactly (the loop
in httprequest.rs:276-281). -/
def firstCookie (name : String) : List Cookie → Option Cookie
  | [] => none
  | c :: cs => if c.name = name then some c else firstCookie name cs

/-- `cookie` (httprequest.rs:273-283): call `cookies()`; on `Ok`, scan
for the first entry with the given name; on `Err`, fall through to
`None`.  A panic inside `cookies()` propagates to the caller. -/
def HttpRequest.cookie (ctx : RequestContext) (name : String) :
    RustOutcome (Option Cookie) :=
  match HttpRequest.cookies ctx with
  | .panicked m => .panicked m
  | .returns (.ok cs) => .returns (firstCookie name cs)
  | .returns (.error _) => .returns none

/-- C2 (code bug): on the concrete request for URI `/?id=test`, both
`query()` and `cookies()` panic with `unimplemented!()` instead of
returning, so repeated calls can never observe a single cached derived
value as the claim states; the module's own tests
(`test_request_query`, `test_request_cookies`) call these functions and
expect values. -/
theorem query_cookies_unimplemented :
    HttpRequest.query (simpleRequest (Uri.parse "/?id=test"))
        = .panicked "not implemented" ∧
    HttpRequest.cookies (simpleRequest (Uri.parse "/?id=test"))
        = .panicked "not implemented" :=
  ⟨rfl, rfl⟩

/-- C5 (code bug): on the request carrying the header
`Cookie: cookie1=value1; cookie2=value2`, `cookies()` panics with
`unimplemented!()` instead of returning the ordered entry list the
claim (and the module test `test_request_cookies`) describes. -/
theorem cookies_header_panics :
    HttpRequest.cookies
        (requestWithHeaders [("cookie", "cookie1=value1; cookie2=value2")])
      = .panicked "not implemented" :=
  rfl

/-- C6 (code bug): `cookie("cookie1")` on the request carrying
`Cookie: cookie1=value1; cookie2=value2` panics — the scan over the
parsed list is present in `cookie`, but the `cookies()` call it starts
with is `unimplemented!()` — instead of returning the first matching
entry as the claim (and `test_request_cookies`) describes. -/
theorem cookie_lookup_panics :
    HttpRequest.cookie
        (requestWithHeaders [("cookie", "cookie1=value1; cookie2=value2")])
        "cookie1"
      = .panicked "not implemented" :=
  rfl

/-- C7 (code bug): on the request for URI `/?id=test`, `query()` panics
with `unimplemented!()` instead of returning a map containing
`id ↦ test` as the claim (and the module test `test_request_query`)
describes. -/
theorem query_id_test_panics :
    HttpRequest.query (simpleRequest (Uri.parse "/?id=test"))
      = .panicked "not implemented" :=
  rfl

/-- Modelled from the spec: `UrlGenerationError` (error.rs is not under
src/), per §7 — unknown route name, too few segment values, or a final
URL-syntax violation. -/
inductive UrlGenerationError where
  | ResourceNotFound
  | NotEnoughElements
  | UrlParse
  deriving Repr, DecidableEq

/-- A parsed URL at the interface the code consumes from the external
`url` crate: we keep only its textual representation. -/
structure Url where
  txt : String
  deriving Repr, DecidableEq

/-- Modelled from the spec: `ConnectionInfo` (info.rs is not under
src/), per §6 — `url_for` consumes only its `scheme()` and `host()`. -/
structure ConnectionInfo where
  scheme : String
  host : String
  deriving Repr, DecidableEq

/-- `Url::parse(s)?` as `url_for` uses it: the external parser either
yields a URL or a parse error, which `?` converts into
`UrlGenerationError::UrlParse`. -/
def parseUrlOrErr (parse : String → Option Url) (s : String) :
    Except UrlGenerationError Url :=
  match parse s with
  | some u => .ok u
  | none => .error .UrlParse

/-- `path.starts_with('/')` — whether the first character of the
resolved path is the path separator. -/
def startsWithSlash (s : String) : Bool :=
  match s.toList with
  | [] => false
  | c :: _ => c = '/'

/-- `url_for` (httprequest.rs:170-189): resolve the named route via the
router collaborator (`self.router().resource_path(name, elements)?`,
propagating its error verbatim); if the resolved path starts with `/`,
parse the string assembled as `scheme://host` + path from the
connection info; otherwise parse the resolved value itself, unchanged.
`rp` is the router's `resource_path`; `parse` is the external
`Url::parse`. -/
def HttpRequest.url_for
    (rp : String → List String → Except UrlGenerationError String)
    (parse : String → Option Url) (conn : ConnectionInfo)
    (name : String) (elements : List String) :
    Except UrlGenerationError Url :=
  match rp name elements with
  | .error e => .error e
  | .ok path =>
    if startsWithSlash path then
      parseUrlOrErr parse (conn.scheme ++ "://" ++ conn.host ++ path)
    else
      parseUrlOrErr parse path

/-- `url_for_static` (httprequest.rs:195-198): `url_for` with the empty
segment list `NO_PARAMS`. -/
def HttpRequest.url_for_static
    (rp : String → List String → Except UrlGenerationError String)
    (parse : String → Option Url) (conn : ConnectionInfo)
    (name : String) : Except UrlGenerationError Url :=
  HttpRequest.url_for rp parse conn name []

/-- A path template as the routing collaborator resolves it: literal
text and variable placeholders; `/user/{name}.{ext}` is
`[lit "/user/", var, lit ".", var]`. -/
inductive PathSeg where
  | lit (s : String)
  | var
  deriving Repr, DecidableEq

/-- Number of variable placeholders a template requires. -/
def countVars : List PathSeg → Nat
  | [] => 0
  | .lit _ :: rest => countVars rest
  | .var :: rest => countVars rest + 1

/-- Modelled from the spec: template substitution inside the routing
collaborator's `resource_path` (router.rs is not under src/), per §4.4
and §6 — substitute the ordered segment values into the variables
left-to-right; fail with `NotEnoughElements` when the values run out
before the variables do. -/
def fillTemplate : List PathSeg → List String → Except UrlGenerationError String
  | [], _ => .ok ""
  | .lit s :: rest, es =>
    match fillTemplate rest es with
    | .ok t => .ok (s ++ t)
    | .error e => .error e
  | .var :: _, [] => .error .NotEnoughElements
  | .var :: rest, e :: es =>
    match fillTemplate rest es with
    | .ok t => .ok (e ++ t)
    | .error err => .error err

/-- Modelled from the spec: the routing collaborator's `resource_path`
(router.rs is not under src/), per §6 — look the route name up in the
table of named templates, failing with `ResourceNotFound` when it is
unknown, then fill the template with the segment values. -/
def resource_path (table : List (String × List PathSeg))
    (name : String) (elements : List String) :
    Except UrlGenerationError String :=
  match table.lookup name with
  | none => .error .ResourceNotFound
  | some tmpl => fillTemplate tmpl elements

-- Lemma: too few segment values make substitution fail.
theorem fillTemplate_not_enough (tmpl : List PathSeg) (es : List String)
    (h : es.length < countVars tmpl) :
    fillTemplate tmpl es = .error .NotEnoughElements := by
  induction tmpl generalizing es with
  | nil => simp [countVars] at h
  | cons seg rest ih =>
    cases seg with
    | lit s =>
      simp only [countVars] at h
      simp [fillTemplate, ih es h]
    | var =>
      cases es with
      | nil => rfl
      | cons e es =>
        simp only [countVars, List.length_cons, Nat.succ_lt_succ_iff] at h
        simp [fillTemplate, ih es h]

/-- C3: when the router resolves `name`/`elements` to `path`: if `path`
starts with `/`, `url_for` returns the result of parsing the URL
assembled as scheme, `://`, host (both from the connection info), then
`path`; if `path` does not start with `/`, `url_for` returns the result
of parsing `path` itself, with no scheme/host substitution. -/
theorem url_for_assembly
    (rp : String → List String → Except UrlGenerationError String)
    (parse : String → Option Url) (conn : ConnectionInfo)
    (name : String) (elements : List String) (path : String) :
    (rp name elements = .ok path → startsWithSlash path = true →
      HttpRequest.url_for rp parse conn name elements
        = parseUrlOrErr parse (conn.scheme ++ "://" ++ conn.host ++ path)) ∧
    (rp name elements = .ok path → startsWithSlash path = false →
      HttpRequest.url_for rp parse conn name elements
        = parseUrlOrErr parse path) := by
  constructor
  · intro h hs
    simp [HttpRequest.url_for, h, hs]
  · intro h hs
    simp [HttpRequest.url_for, h, hs]

/-- Witness for C3: a route resolving to `/user/test.html` under host
`www.example.org` yields `http://www.example.org/user/test.html`; an
external route resolving to `https://youtube.com/watch/abc` is returned
parsed but unchanged. -/
theorem url_for_assembly_witness :
    HttpRequest.url_for (fun _ _ => .ok "/user/test.html")
        (fun s => some ⟨s⟩) ⟨"http", "www.example.org"⟩ "index" ["test", "html"]
      = .ok ⟨"http://www.example.org/user/test.html"⟩ ∧
    HttpRequest.url_for (fun _ _ => .ok "https://youtube.com/watch/abc")
        (fun s => some ⟨s⟩) ⟨"http", "www.example.org"⟩ "youtube" ["abc"]
      = .ok ⟨"https://youtube.com/watch/abc"⟩ := by
  constructor
  · have h := (url_for_assembly (fun _ _ => .ok "/user/test.html")
      (fun s => some ⟨s⟩) ⟨"http", "www.example.org"⟩ "index" ["test", "html"]
      "/user/test.html").1 rfl (by decide)
    rw [h]
    rfl
  · have h := (url_for_assembly (fun _ _ => .ok "https://youtube.com/watch/abc")
      (fun s => some ⟨s⟩) ⟨"http", "www.example.org"⟩ "youtube" ["abc"]
      "https://youtube.com/watch/abc").2 rfl (by decide)
    rw [h]
    rfl

/-- C4: `url_for` propagates the routing collaborator's errors
verbatim: against the table-based resolver, an unknown route name
yields `ResourceNotFound`, and supplying fewer segment values than the
template has variables yields `NotEnoughElements`. -/
theorem url_for_error_propagation
    (table : List (String × List PathSeg)) (parse : String → Option Url)
    (conn : ConnectionInfo) (name : String) (elements : List String)
    (tmpl : List PathSeg) :
    (table.lookup name = none →
      HttpRequest.url_for (resource_path table) parse conn name elements
        = .error .ResourceNotFound) ∧
    (table.lookup name = some tmpl → elements.length < countVars tmpl →
      HttpRequest.url_for (resource_path table) parse conn name elements
        = .error .NotEnoughElements) := by
  constructor
  · intro h
    simp [HttpRequest.url_for, resource_path, h]
  · intro h hlen
    simp [HttpRequest.url_for, resource_path, h,
      fillTemplate_not_enough tmpl elements hlen]

/-- Witness for C4: against a table holding only
`index -> /{one}/{two}`, `url_for "unknown" ["x"]` fails with
`ResourceNotFound` and `url_for "index" []` fails with
`NotEnoughElements`. -/
theorem url_for_error_propagation_witness :
    (HttpRequest.url_for
        (resource_path [("index", [.lit "/", .var, .lit "/", .var])])
        (fun s => some ⟨s⟩) ⟨"http", "www.example.org"⟩ "unknown" ["x"]
      = .error .ResourceNotFound) ∧
    (HttpRequest.url_for
        (resource_path [("index", [.lit "/", .var, .lit "/", .var])])
        (fun s => some ⟨s⟩) ⟨"http", "www.example.org"⟩ "index" []
      = .error .NotEnoughElements) := by
  constructor
  · exact (url_for_error_propagation [("index", [.lit "/", .var, .lit "/", .var])]
      (fun s => some ⟨s⟩) ⟨"http", "www.example.org"⟩ "unknown" ["x"]
      [.lit "/", .var, .lit "/", .var]).1 (by decide)
  · exact (url_for_error_propagation [("index", [.lit "/", .var, .lit "/", .var])]
      (fun s => some ⟨s⟩) ⟨"http", "www.example.org"⟩ "index" []
      [.lit "/", .var, .lit "/", .var]).2 (by decide) (by decide)

/-- C10: for every router, parser, connection info and route name,
`url_for_static name` returns exactly what `url_for name []` returns
with the empty segment list. -/
theorem url_for_static_eq
    (rp : String → List String → Except UrlGenerationError String)
    (parse : String → Option Url) (conn : ConnectionInfo) (name : String) :
    HttpRequest.url_for_static rp parse conn name
      = HttpRequest.url_for rp parse conn name [] :=
  rfl

end ActixReq
